import Mathlib

/-!
# Verification of the control-resolution and dispatch logic of `generate.py`

Shallow embedding of the command-line driver `generate.py` of the amadeus
repository.  Python strings are modelled as lists of characters (`PyStr`),
floating-point numbers as rationals (`ℚ`), machine integers as `ℤ`/`ℕ`,
and assertion failures / uncaught exceptions as `Except.error`.

The embedding covers:
* the inline control-string parser (lines 143-159 of `generate.py`);
* the file/directory control branch (lines 129-141);
* the final `assert max_len > 0` (line 165);
* the beam-search vs. greedy/temperature dispatch (lines 117-125, 207-219).

Parts of the repository used by `generate.py` but not present in the
source tree (the `sequence`, `utils` modules, `np.random.choice`, and
`torch.load`) are modelled from the specification; each such definition
carries a doc comment starting with `Modelled from the spec:`.
-/

/-- A Python string, modelled as its list of characters. -/
abbrev PyStr := List Char

/-- Embedding of Python's `str.split(sep)` for a one-character separator:
splitting the empty string yields `[""]`, and adjacent separators yield
empty items, exactly as in Python. -/
def splitOnChar (sep : Char) : List Char → List (List Char)
  | [] => [[]]
  | c :: cs =>
    match splitOnChar sep cs with
    | [] => if c = sep then [[], [c]] else [[c]]
    | r :: rs => if c = sep then [] :: r :: rs else (c :: r) :: rs

/-- Accumulating decimal-digit parser: fails on any non-digit character. -/
def parseDigitsAux : List Char → ℕ → Option ℕ
  | [], acc => some acc
  | c :: cs, acc =>
    if c.isDigit then parseDigitsAux cs (acc * 10 + (c.toNat - 48)) else none

/-- Parse a non-empty string of decimal digits as a natural number. -/
def parseDigits (cs : List Char) : Option ℕ :=
  match cs with
  | [] => none
  | _ => parseDigitsAux cs 0

/-- Embedding of Python's `float()` on unsigned inputs: decimal digits with
an optional fractional part (`"12"`, `"12.5"`, `"12."`, `".5"`).  The value
is exact, as a rational. -/
def pyFloatUnsigned (cs : List Char) : Option ℚ :=
  match splitOnChar '.' cs with
  | [ds] => (parseDigits ds).map (fun n => (n : ℚ))
  | [i, f] =>
    if i.isEmpty && f.isEmpty then none
    else
      match (if i.isEmpty then some 0 else parseDigits i),
            (if f.isEmpty then some (0 : ℚ)
             else (parseDigits f).map (fun n => (n : ℚ) / (10 ^ f.length))) with
      | some a, some b => some ((a : ℚ) + b)
      | _, _ => none
  | _ => none

/-- Embedding of Python's `float()`: optional sign then an unsigned float.
Returns `none` where Python would raise `ValueError`. -/
def pyFloat (cs : PyStr) : Option ℚ :=
  match cs with
  | '-' :: rest => (pyFloatUnsigned rest).map (fun q => -q)
  | '+' :: rest => pyFloatUnsigned rest
  | _ => pyFloatUnsigned cs

/-- Embedding of Python's `int()`: optional sign then decimal digits.
Returns `none` where Python would raise `ValueError`. -/
def pyInt (cs : PyStr) : Option ℤ :=
  match cs with
  | '-' :: rest => (parseDigits rest).map (fun n => -(n : ℤ))
  | '+' :: rest => (parseDigits rest).map (fun n => (n : ℤ))
  | _ => (parseDigits cs).map (fun n => (n : ℤ))

/-- Embedding of `list(map(float, items))`: all items must parse. -/
def parseFloats : List PyStr → Option (List ℚ)
  | [] => some []
  | t :: ts =>
    match pyFloat t, parseFloats ts with
    | some v, some vs => some (v :: vs)
    | _, _ => none

/-- Modelled from the spec: the `Control` class of the `sequence` module is
not under `src/`.  The spec describes it as "a pitch-class histogram
(12 non-negative weights, normalized to sum to 1) paired with a discrete
note-density bucket index". -/
structure Control where
  pitch_histogram : List ℚ
  note_density : ℤ
deriving DecidableEq

/-- Modelled from the spec: `Control.to_array` of the `sequence` module is
not under `src/`.  The spec says a Control "serializes to a fixed-length
numeric array"; we model that array as the histogram weights followed by
the density index. -/
def Control.to_array (c : Control) : List ℚ :=
  c.pitch_histogram ++ [(c.note_density : ℚ)]

/-- `np.ones(12) / 12`: the uniform distribution over the 12 pitch classes. -/
def uniform12 : List ℚ := List.replicate 12 (1 / 12)

/-- `list(filter(len, pitch_histogram.split(',')))` (line 145): the
comma-separated items of the histogram half with empty items removed. -/
def histItems (s : PyStr) : List PyStr :=
  (splitOnChar ',' s).filter (fun t => !t.isEmpty)

/-- Embedding of the pitch-histogram parsing and normalization
(lines 144-153 of `generate.py`): empty item list gives the uniform
distribution; otherwise all items must parse as floats, there must be
exactly 12 of them, all non-negative; a zero sum falls back to uniform
and a non-zero sum normalizes. -/
def parsePitchHistogram (s : PyStr) : Except String (List ℚ) :=
  if (histItems s).isEmpty then Except.ok uniform12
  else
    match parseFloats (histItems s) with
    | none => Except.error "ValueError: could not convert string to float"
    | some vals =>
      if vals.length = 12 then
        if vals.all (fun v => decide (0 ≤ v)) then
          if vals.sum ≠ 0 then Except.ok (vals.map (fun v => v / vals.sum))
          else Except.ok uniform12
        else Except.error "AssertionError: np.all(pitch_histogram >= 0)"
      else Except.error "AssertionError: pitch_histogram.size == 12"

/-- Embedding of the inline-control branch (lines 144-156): split the
argument at `;` into exactly two halves (Python's tuple unpacking raises
otherwise), parse the histogram half, parse the density half as an int and
require it to lie in `range(nBins)` where `nBins` is the number of
note-density bins (`len(ControlSeq.note_density_bins)`, a module constant
not under `src/`, kept as a parameter). -/
def parseInlineControl (nBins : ℕ) (s : PyStr) : Except String Control :=
  match splitOnChar ';' s with
  | [histStr, densStr] =>
    match parsePitchHistogram histStr with
    | Except.error e => Except.error e
    | Except.ok hist =>
      match pyInt densStr with
      | none => Except.error "ValueError: invalid literal for int()"
      | some d =>
        if 0 ≤ d ∧ d < (nBins : ℤ) then Except.ok ⟨hist, d⟩
        else Except.error "AssertionError: note_density in range(len(ControlSeq.note_density_bins))"
  | _ => Except.error "ValueError: not enough values to unpack"

/-- Modelled from the spec: the filesystem and stored-data operations that
`generate.py` calls into but whose code is not under `src/`.
`isFile`/`isDir` model `os.path.isfile`/`os.path.isdir`; `dirFiles` models
the files contained in a directory; `choiceIdx` models the random index
drawn by `np.random.choice`; `fileData` models
`torch.load` followed by `ControlSeq.recover_compressed_array`, which per
the spec "load a stored compressed control array and decompress it into
one vector per time step". -/
structure Env where
  isFile : PyStr → Bool
  isDir : PyStr → Bool
  dirFiles : PyStr → List PyStr
  choiceIdx : List PyStr → ℕ
  fileData : PyStr → List (List ℚ)

/-- Modelled from the spec: the extension filter of
`utils.find_files_by_extensions` (not under `src/`).  The spec speaks of
"files matching known data-file extensions", and the CLI help text of
`generate.py` names processed data files `*.data`. -/
def hasKnownExt (f : PyStr) : Bool :=
  List.isSuffixOf ['.', 'd', 'a', 't', 'a'] f

/-- `list(utils.find_files_by_extensions(control))` (line 132): the files
of the directory that match a known data-file extension. -/
def knownExtFiles (env : Env) (dir : PyStr) : List PyStr :=
  (env.dirFiles dir).filter hasKnownExt

/-- Embedding of lines 132-134: assert that the directory holds at least
one matching file, then select one of them (`np.random.choice`). -/
def selectDirFile (env : Env) (dir : PyStr) : Except String PyStr :=
  let files := knownExtFiles env dir
  if files.isEmpty then Except.error "AssertionError: no file in directory"
  else Except.ok (files.getD (env.choiceIdx files % files.length) [])

/-- The outcome of control resolution: the control tensor (if any), indexed
as steps x batch x features, and the final maximum generation length. -/
structure ResolveOut where
  controls : Option (List (List (List ℚ)))
  maxLen : ℤ
deriving DecidableEq

/-- Embedding of lines 129-163 of `generate.py`, before the final length
assertion: resolve the optional control argument into a control tensor and
the (possibly inferred) maximum length.
* no argument: no controls, length unchanged;
* existing file or directory: for a directory first select a contained
  data file; load the stored control array; infer the length from its step
  count exactly when the given length is `0`; replicate each step's vector
  across the batch (`unsqueeze(1).repeat(1, batch_size, 1)`);
* otherwise: parse the inline control string and broadcast the single
  Control's array as a one-step tensor replicated across the batch
  (`repeat(1, batch_size, 1)`). -/
def resolveCore (env : Env) (nBins : ℕ) (ctl : Option PyStr) (batchSize : ℕ)
    (maxLen0 : ℤ) : Except String ResolveOut :=
  match ctl with
  | none => Except.ok ⟨none, maxLen0⟩
  | some c =>
    if env.isFile c || env.isDir c then
      match (if env.isDir c then selectDirFile env c else Except.ok c) with
      | Except.error e => Except.error e
      | Except.ok path =>
        let arr := env.fileData path
        let maxLen := if maxLen0 = 0 then (arr.length : ℤ) else maxLen0
        Except.ok ⟨some (arr.map (fun v => List.replicate batchSize v)), maxLen⟩
    else
      match parseInlineControl nBins c with
      | Except.error e => Except.error e
      | Except.ok ctrl =>
        Except.ok ⟨some [List.replicate batchSize ctrl.to_array], maxLen0⟩

/-- The final `assert max_len > 0` (line 165 of `generate.py`), applied to
the outcome of the preceding resolution. -/
def checkMaxLen : Except String ResolveOut → Except String ResolveOut
  | Except.error e => Except.error e
  | Except.ok out =>
    if out.maxLen > 0 then Except.ok out
    else Except.error "AssertionError: either max length or control sequence length should be given"

/-- Embedding of control resolution followed by the final
`assert max_len > 0` (line 165 of `generate.py`). -/
def resolveControl (env : Env) (nBins : ℕ) (ctl : Option PyStr)
    (batchSize : ℕ) (maxLen0 : ℤ) : Except String ResolveOut :=
  checkMaxLen (resolveCore env nBins ctl batchSize maxLen0)

/-- Whether a resolution outcome is a failure (a Python assertion error or
uncaught exception aborting the run). -/
def isError {α : Type} : Except String α → Bool
  | Except.error _ => true
  | Except.ok _ => false

/-- A numeric option that may have been replaced by the string
`'DISABLED'` (lines 122-125 of `generate.py` rebind `greedy_ratio` or
`beam_size` to that string). -/
inductive Knob where
  | value (x : ℚ)
  | DISABLED
deriving DecidableEq

/-- Same, for the integer-valued `beam_size` option. -/
inductive IntKnob where
  | value (n : ℤ)
  | DISABLED
deriving DecidableEq

/-- The sampling configuration after lines 117-125 of `generate.py`. -/
structure SamplingConfig where
  useBeamSearch : Bool
  greedyRatio : Knob
  beamSize : IntKnob
deriving DecidableEq

/-- Embedding of lines 117-125: `use_beam_search = opt.beam_size > 0`, and
the inactive strategy's option is replaced by `'DISABLED'`. -/
def samplingConfig (beamSize : ℤ) (greedyRatio : ℚ) : SamplingConfig :=
  let useBeam := beamSize > 0
  if useBeam then ⟨true, Knob.DISABLED, IntKnob.value beamSize⟩
  else ⟨false, Knob.value greedyRatio, IntKnob.DISABLED⟩

/-- The two decode procedures of lines 207-219. -/
inductive Strategy where
  | beamSearch
  | generate
deriving DecidableEq

/-- Embedding of the generation dispatch (lines 208-219): beam search is
invoked exactly when `use_beam_search` holds, else `model.generate`. -/
def dispatch (cfg : SamplingConfig) : Strategy :=
  if cfg.useBeamSearch then Strategy.beamSearch else Strategy.generate

/-! ## Helper lemmas -/

theorem parseFloats_length (l : List PyStr) (vs : List ℚ)
    (h : parseFloats l = some vs) : vs.length = l.length := by
  induction l generalizing vs with
  | nil =>
    simp only [parseFloats, Option.some.injEq] at h
    subst h; rfl
  | cons t ts ih =>
    simp only [parseFloats] at h
    cases hp : pyFloat t with
    | none => rw [hp] at h; exact absurd h (by simp)
    | some v =>
      rw [hp] at h
      cases hr : parseFloats ts with
      | none => rw [hr] at h; exact absurd h (by simp)
      | some ws =>
        rw [hr] at h
        simp only [Option.some.injEq] at h
        subst h
        simp [ih ws hr]

theorem sum_map_div (l : List ℚ) (s : ℚ) :
    (l.map (fun v => v / s)).sum = l.sum / s := by
  induction l with
  | nil => simp
  | cons x xs ih => simp [ih, add_div]

theorem histItems_nonempty_of_parse (s : PyStr) (vs : List ℚ)
    (hparse : parseFloats (histItems s) = some vs) (hlen : vs.length = 12) :
    (histItems s).isEmpty = false := by
  have hl : (histItems s).length = 12 := by
    rw [← parseFloats_length _ _ hparse, hlen]
  cases h : histItems s with
  | nil => rw [h] at hl; simp at hl
  | cons a as => simp

theorem all_nonneg_eq_true (vs : List ℚ) (hnn : ∀ v ∈ vs, 0 ≤ v) :
    vs.all (fun v => decide (0 ≤ v)) = true := by
  rw [List.all_eq_true]
  intro v hv
  exact decide_eq_true_eq.mpr (hnn v hv)

/-- Evaluation of the histogram parser when the items parse to 12
non-negative values of non-zero sum: the values are normalized. -/
theorem parsePitchHistogram_normalizes (s : PyStr) (vs : List ℚ)
    (hparse : parseFloats (histItems s) = some vs) (hlen : vs.length = 12)
    (hnn : ∀ v ∈ vs, 0 ≤ v) (hsum : vs.sum ≠ 0) :
    parsePitchHistogram s = Except.ok (vs.map (fun v => v / vs.sum)) := by
  simp only [parsePitchHistogram, histItems_nonempty_of_parse s vs hparse hlen,
    Bool.false_eq_true, if_false, hparse]
  rw [if_pos hlen, if_pos (all_nonneg_eq_true vs hnn), if_pos hsum]

/-- Evaluation of the histogram parser when the filtered item list is
empty: the uniform distribution. -/
theorem parsePitchHistogram_of_no_items (s : PyStr) (h : histItems s = []) :
    parsePitchHistogram s = Except.ok uniform12 := by
  unfold parsePitchHistogram
  rw [h]
  rfl

/-- Evaluation of the histogram parser when the items parse to 12
non-negative values summing to zero: fall back to uniform. -/
theorem parsePitchHistogram_of_zero_sum (s : PyStr) (vs : List ℚ)
    (hparse : parseFloats (histItems s) = some vs) (hlen : vs.length = 12)
    (hnn : ∀ v ∈ vs, 0 ≤ v) (hsum : vs.sum = 0) :
    parsePitchHistogram s = Except.ok uniform12 := by
  simp only [parsePitchHistogram, histItems_nonempty_of_parse s vs hparse hlen,
    Bool.false_eq_true, if_false, hparse]
  rw [if_pos hlen, if_pos (all_nonneg_eq_true vs hnn), if_neg (by simp [hsum])]

/-- Evaluation of the inline-control parser on a successful histogram and
an in-range density index. -/
theorem parseInlineControl_ok (nBins : ℕ) (s hS dS : PyStr) (hist : List ℚ) (d : ℤ)
    (hsplit : splitOnChar ';' s = [hS, dS])
    (hph : parsePitchHistogram hS = Except.ok hist)
    (hd : pyInt dS = some d) (hdr : 0 ≤ d ∧ d < (nBins : ℤ)) :
    parseInlineControl nBins s = Except.ok ⟨hist, d⟩ := by
  simp only [parseInlineControl, hsplit, hph, hd]
  rw [if_pos hdr]

/-- Resolution with no control argument, before the length assertion. -/
theorem resolveCore_none (env : Env) (nBins batchSize : ℕ) (m0 : ℤ) :
    resolveCore env nBins none batchSize m0 = Except.ok ⟨none, m0⟩ := rfl

/-- Resolution of a control file path, before the length assertion. -/
theorem resolveCore_file (env : Env) (nBins batchSize : ℕ) (m0 : ℤ) (c : PyStr)
    (hf : env.isFile c = true) (hd : env.isDir c = false) :
    resolveCore env nBins (some c) batchSize m0 =
      Except.ok ⟨some ((env.fileData c).map (fun v => List.replicate batchSize v)),
                 if m0 = 0 then ((env.fileData c).length : ℤ) else m0⟩ := by
  simp only [resolveCore, hf, hd, Bool.true_or, if_true, Bool.false_eq_true, if_false]

/-- Resolution of a directory argument with no matching data file, before
the length assertion: the selection assertion fails. -/
theorem resolveCore_dir_no_match (env : Env) (nBins batchSize : ℕ) (m0 : ℤ) (c : PyStr)
    (hd : env.isDir c = true) (hk : knownExtFiles env c = []) :
    resolveCore env nBins (some c) batchSize m0 =
      Except.error "AssertionError: no file in directory" := by
  simp only [resolveCore, selectDirFile, hd, Bool.or_true, if_true, hk,
    List.isEmpty_nil, Bool.true_eq_false, if_false]

/-- Resolution of a directory argument with a matching data file, before
the length assertion: the chosen file's array is loaded. -/
theorem resolveCore_dir_match (env : Env) (nBins batchSize : ℕ) (m0 : ℤ) (c f : PyStr)
    (hd : env.isDir c = true) (hsel : selectDirFile env c = Except.ok f) :
    resolveCore env nBins (some c) batchSize m0 =
      Except.ok ⟨some ((env.fileData f).map (fun v => List.replicate batchSize v)),
                 if m0 = 0 then ((env.fileData f).length : ℤ) else m0⟩ := by
  simp only [resolveCore, hd, Bool.or_true, if_true, hsel]

/-- Resolution of an inline control string, before the length assertion. -/
theorem resolveCore_inline (env : Env) (nBins batchSize : ℕ) (m0 : ℤ) (c : PyStr)
    (hf : env.isFile c = false) (hd : env.isDir c = false) :
    resolveCore env nBins (some c) batchSize m0 =
      match parseInlineControl nBins c with
      | Except.error e => Except.error e
      | Except.ok ctrl =>
        Except.ok ⟨some [List.replicate batchSize ctrl.to_array], m0⟩ := by
  simp only [resolveCore, hf, hd, Bool.or_self, Bool.false_eq_true, if_false]

/-- A successful resolution passes the final length assertion. -/
theorem resolveControl_ok_elim (env : Env) (nBins batchSize : ℕ)
    (ctl : Option PyStr) (m0 : ℤ) (out : ResolveOut)
    (h : resolveControl env nBins ctl batchSize m0 = Except.ok out) :
    resolveCore env nBins ctl batchSize m0 = Except.ok out ∧ out.maxLen > 0 := by
  unfold resolveControl at h
  cases hc : resolveCore env nBins ctl batchSize m0 with
  | error e => rw [hc] at h; cases h
  | ok o =>
    rw [hc, checkMaxLen] at h
    by_cases hm : o.maxLen > 0
    · rw [if_pos hm] at h
      injection h with h
      subst h
      exact ⟨rfl, hm⟩
    · rw [if_neg hm] at h; cases h

/-- A resolution outcome with positive length passes the final assertion. -/
theorem resolveControl_ok_intro (env : Env) (nBins batchSize : ℕ)
    (ctl : Option PyStr) (m0 : ℤ) (out : ResolveOut)
    (hc : resolveCore env nBins ctl batchSize m0 = Except.ok out)
    (hm : out.maxLen > 0) :
    resolveControl env nBins ctl batchSize m0 = Except.ok out := by
  unfold resolveControl
  rw [hc, checkMaxLen, if_pos hm]

/-- A failing core resolution fails overall. -/
theorem resolveControl_err_of_core (env : Env) (nBins batchSize : ℕ)
    (ctl : Option PyStr) (m0 : ℤ) (e : String)
    (hc : resolveCore env nBins ctl batchSize m0 = Except.error e) :
    isError (resolveControl env nBins ctl batchSize m0) = true := by
  unfold resolveControl
  rw [hc, checkMaxLen]
  rfl

/-- A core resolution with non-positive length fails the final assertion. -/
theorem resolveControl_err_of_nonpos (env : Env) (nBins batchSize : ℕ)
    (ctl : Option PyStr) (m0 : ℤ) (out : ResolveOut)
    (hc : resolveCore env nBins ctl batchSize m0 = Except.ok out)
    (hm : ¬ out.maxLen > 0) :
    isError (resolveControl env nBins ctl batchSize m0) = true := by
  unfold resolveControl
  rw [hc, checkMaxLen, if_neg hm]
  rfl

/-- The file selected from a directory is one of its matching files. -/
theorem selectDirFile_mem (env : Env) (c f : PyStr)
    (h : selectDirFile env c = Except.ok f) : f ∈ knownExtFiles env c := by
  unfold selectDirFile at h
  by_cases he : (knownExtFiles env c).isEmpty
  · rw [if_pos he] at h; cases h
  · rw [if_neg he] at h
    injection h with h
    subst h
    have hpos : 0 < (knownExtFiles env c).length := by
      cases hk : knownExtFiles env c with
      | nil => rw [hk] at he; exact absurd rfl he
      | cons a as => simp
    have hlt : env.choiceIdx (knownExtFiles env c) % (knownExtFiles env c).length
        < (knownExtFiles env c).length := Nat.mod_lt _ hpos
    rw [List.getD_eq_getElem _ _ hlt]
    exact List.getElem_mem hlt

/-- Selection from a directory succeeds when a matching file exists. -/
theorem selectDirFile_exists (env : Env) (c : PyStr)
    (h : knownExtFiles env c ≠ []) : ∃ f, selectDirFile env c = Except.ok f := by
  refine ⟨(knownExtFiles env c).getD
      (env.choiceIdx (knownExtFiles env c) % (knownExtFiles env c).length) [], ?_⟩
  unfold selectDirFile
  rw [if_neg (by simpa [List.isEmpty_iff] using h)]

/-! ## Claims -/

/-- Claim C1: for every control argument parsed as an inline
`"<pitch_histogram>;<note_density>"` string whose histogram half is a
comma-separated list of exactly 12 non-negative numbers with positive sum,
the resolved Control's pitch histogram is the input values divided by
their sum, and therefore sums to 1 (exactly, since floats are modelled as
rationals). -/
theorem C1_inline_histogram_normalized (s hS dS : PyStr) (nBins : ℕ)
    (vs : List ℚ) (d : ℤ)
    (hsplit : splitOnChar ';' s = [hS, dS])
    (hparse : parseFloats (histItems hS) = some vs)
    (hlen : vs.length = 12)
    (hnn : ∀ v ∈ vs, 0 ≤ v)
    (hsum : 0 < vs.sum)
    (hd : pyInt dS = some d)
    (hdr : 0 ≤ d ∧ d < (nBins : ℤ)) :
    parseInlineControl nBins s = Except.ok ⟨vs.map (fun v => v / vs.sum), d⟩
      ∧ (vs.map (fun v => v / vs.sum)).sum = 1 := by
  constructor
  · exact parseInlineControl_ok nBins s hS dS _ d hsplit
      (parsePitchHistogram_normalizes hS vs hparse hlen hnn hsum.ne') hd hdr
  · rw [sum_map_div]
    exact div_self hsum.ne'

/-- Witness for C1 at the concrete input `"1,0,0,0,0,0,0,0,0,0,0,0;4"`. -/
theorem C1_inline_histogram_normalized_witness :
    parseInlineControl 12 "1,0,0,0,0,0,0,0,0,0,0,0;4".toList =
      Except.ok ⟨([1, 0, 0, 0, 0, 0, 0, 0, 0, 0, 0, 0] : List ℚ).map
        (fun v => v / ([1, 0, 0, 0, 0, 0, 0, 0, 0, 0, 0, 0] : List ℚ).sum), 4⟩
    ∧ (([1, 0, 0, 0, 0, 0, 0, 0, 0, 0, 0, 0] : List ℚ).map
        (fun v => v / ([1, 0, 0, 0, 0, 0, 0, 0, 0, 0, 0, 0] : List ℚ).sum)).sum = 1 :=
  C1_inline_histogram_normalized "1,0,0,0,0,0,0,0,0,0,0,0;4".toList
    "1,0,0,0,0,0,0,0,0,0,0,0".toList "4".toList 12
    [1, 0, 0, 0, 0, 0, 0, 0, 0, 0, 0, 0] 4
    (by decide) (by rfl) (by decide) (by decide) (by simp) (by rfl) (by decide)

/-- Claim C4: an inline control string whose histogram half has an empty
item list, or whose 12 histogram values sum to zero, resolves to a Control
whose pitch histogram is the uniform distribution assigning 1/12 to each
of the 12 pitch classes. -/
theorem C4_inline_histogram_uniform (s hS dS : PyStr) (nBins : ℕ) (d : ℤ)
    (hsplit : splitOnChar ';' s = [hS, dS])
    (hcase : histItems hS = [] ∨
      ∃ vs, parseFloats (histItems hS) = some vs ∧ vs.length = 12 ∧
        (∀ v ∈ vs, 0 ≤ v) ∧ vs.sum = 0)
    (hd : pyInt dS = some d)
    (hdr : 0 ≤ d ∧ d < (nBins : ℤ)) :
    parseInlineControl nBins s = Except.ok ⟨uniform12, d⟩
      ∧ uniform12 = List.replicate 12 (1 / 12) := by
  refine ⟨?_, rfl⟩
  rcases hcase with h | ⟨vs, hparse, hlen, hnn, hzero⟩
  · exact parseInlineControl_ok _ _ _ _ _ _ hsplit
      (parsePitchHistogram_of_no_items hS h) hd hdr
  · exact parseInlineControl_ok _ _ _ _ _ _ hsplit
      (parsePitchHistogram_of_zero_sum hS vs hparse hlen hnn hzero) hd hdr

/-- Witness for C4 at the concrete input `";3"` (empty histogram half). -/
theorem C4_inline_histogram_uniform_witness :
    parseInlineControl 12 ";3".toList = Except.ok ⟨uniform12, 3⟩
      ∧ uniform12 = List.replicate 12 (1 / 12) :=
  C4_inline_histogram_uniform ";3".toList "".toList "3".toList 12 3
    (by decide) (Or.inl (by decide)) (by rfl) (by decide)

/-- Claim C5: an inline control string whose density half parses to an
integer outside `range(nBins)` always fails resolution, and an in-range
density index does not fail on the density check (with a well-parsed
histogram the Control is produced). -/
theorem C5_density_range_check (nBins : ℕ) (s hS dS : PyStr) (d : ℤ)
    (hsplit : splitOnChar ';' s = [hS, dS])
    (hd : pyInt dS = some d) :
    (¬(0 ≤ d ∧ d < (nBins : ℤ)) → isError (parseInlineControl nBins s) = true)
    ∧ (∀ hist, parsePitchHistogram hS = Except.ok hist →
        (0 ≤ d ∧ d < (nBins : ℤ)) →
        parseInlineControl nBins s = Except.ok ⟨hist, d⟩) := by
  constructor
  · intro hout
    cases hph : parsePitchHistogram hS with
    | error e =>
      simp only [parseInlineControl, hsplit, hph]
      rfl
    | ok hist =>
      simp only [parseInlineControl, hsplit, hph, hd]
      rw [if_neg hout]
      rfl
  · intro hist hph hin
    exact parseInlineControl_ok nBins s hS dS hist d hsplit hph hd hin

/-- Witness for C5: with 12 density bins, index 12 fails and index 3
succeeds. -/
theorem C5_density_range_check_witness :
    isError (parseInlineControl 12 ";12".toList) = true
    ∧ parseInlineControl 12 ";3".toList = Except.ok ⟨uniform12, 3⟩ :=
  ⟨(C5_density_range_check 12 ";12".toList "".toList "12".toList 12
      (by decide) (by rfl)).1 (by decide),
   (C5_density_range_check 12 ";3".toList "".toList "3".toList 3
      (by decide) (by rfl)).2 uniform12 (by rfl) (by decide)⟩

/-- Claim C10: empty items of the comma-separated histogram half are
filtered out before any validation, so the parser's outcome only depends
on the non-empty items, and a string with leading, trailing or consecutive
commas is accepted whenever its non-empty items number exactly 12 and are
non-negative. -/
theorem C10_empty_items_ignored (s t : PyStr) (vs : List ℚ)
    (hsame : histItems s = histItems t)
    (hparse : parseFloats (histItems s) = some vs)
    (hlen : vs.length = 12)
    (hnn : ∀ v ∈ vs, 0 ≤ v) :
    parsePitchHistogram s = parsePitchHistogram t
    ∧ ∃ r, parsePitchHistogram s = Except.ok r := by
  constructor
  · unfold parsePitchHistogram
    rw [hsame]
  · by_cases hz : vs.sum = 0
    · exact ⟨uniform12, parsePitchHistogram_of_zero_sum s vs hparse hlen hnn hz⟩
    · exact ⟨_, parsePitchHistogram_normalizes s vs hparse hlen hnn hz⟩

/-- Witness for C10: the string `",1,,0,0,0,0,0,0,0,0,0,0,0,"` (leading,
consecutive and trailing commas, 12 non-empty items) parses the same as
`"1,0,0,0,0,0,0,0,0,0,0,0"` and is accepted. -/
theorem C10_empty_items_ignored_witness :
    parsePitchHistogram ",1,,0,0,0,0,0,0,0,0,0,0,0,".toList =
      parsePitchHistogram "1,0,0,0,0,0,0,0,0,0,0,0".toList
    ∧ ∃ r, parsePitchHistogram ",1,,0,0,0,0,0,0,0,0,0,0,0,".toList = Except.ok r :=
  C10_empty_items_ignored ",1,,0,0,0,0,0,0,0,0,0,0,0,".toList
    "1,0,0,0,0,0,0,0,0,0,0,0".toList [1, 0, 0, 0, 0, 0, 0, 0, 0, 0, 0, 0]
    (by decide) (by rfl) (by decide) (by decide)

/-- Claim C7: exactly one sampling strategy is active: beam search is
dispatched iff `beam_size > 0`; when beam search is active the greedy
ratio is marked `DISABLED`, otherwise the beam size is marked
`DISABLED`. -/
theorem C7_sampling_dispatch (b : ℤ) (g : ℚ) :
    (dispatch (samplingConfig b g) = Strategy.beamSearch ↔ 0 < b)
    ∧ (0 < b → (samplingConfig b g).greedyRatio = Knob.DISABLED
          ∧ (samplingConfig b g).beamSize = IntKnob.value b)
    ∧ (¬ 0 < b → (samplingConfig b g).greedyRatio = Knob.value g
          ∧ (samplingConfig b g).beamSize = IntKnob.DISABLED) := by
  by_cases hb : 0 < b
  · simp [samplingConfig, dispatch, hb]
  · simp [samplingConfig, dispatch, hb]

/-- Witness for C7 at `beam_size = 3`, `greedy_ratio = 1`. -/
theorem C7_sampling_dispatch_witness :
    (samplingConfig 3 1).greedyRatio = Knob.DISABLED
    ∧ (samplingConfig 3 1).beamSize = IntKnob.value 3 :=
  (C7_sampling_dispatch 3 1).2.1 (by decide)

/-- A concrete environment: directory `"d"` contains the single file
`"a.txt"`, whose extension is not a known data-file extension. -/
def envDirTxt : Env where
  isFile := fun _ => false
  isDir := fun c => c == ['d']
  dirFiles := fun _ => [['a', '.', 't', 'x', 't']]
  choiceIdx := fun _ => 0
  fileData := fun _ => [[1]]

/-- A concrete environment: directory `"d"` contains the single data file
`"a.data"`, holding a two-step control array. -/
def envDirData : Env where
  isFile := fun _ => false
  isDir := fun c => c == ['d']
  dirFiles := fun _ => [['a', '.', 'd', 'a', 't', 'a']]
  choiceIdx := fun _ => 0
  fileData := fun _ => [[1, 0], [0, 1]]

/-- A concrete environment: `"f"` is a control data file holding a
two-step control array. -/
def envFileTwo : Env where
  isFile := fun c => c == ['f']
  isDir := fun _ => false
  dirFiles := fun _ => []
  choiceIdx := fun _ => 0
  fileData := fun _ => [[1, 0], [0, 1]]

/-- A concrete environment with no files or directories: every control
argument is treated as an inline control string. -/
def envInline : Env where
  isFile := fun _ => false
  isDir := fun _ => false
  dirFiles := fun _ => []
  choiceIdx := fun _ => 0
  fileData := fun _ => []

/-- Claim C2 as stated is false: in an environment where directory `"d"`
is non-empty but holds no file with a known data-file extension,
resolution fails even though the directory is non-empty (the given max
length `5` is positive, so the failure is the file-selection assertion,
not the length assertion). -/
theorem C2_directory_counterexample :
    envDirTxt.isDir ['d'] = true
    ∧ envDirTxt.dirFiles ['d'] ≠ []
    ∧ resolveControl envDirTxt 12 (some ['d']) 8 5 =
        Except.error "AssertionError: no file in directory" :=
  ⟨rfl, by decide, rfl⟩

/-- Claim C2 (amended): for every control argument naming an existing
directory, exactly one file drawn from the directory's files with known
data-file extensions is selected; selection succeeds if and only if at
least one such file exists, and when none exists resolution fails. -/
theorem C2_directory_selection (env : Env) (nBins batchSize : ℕ) (c : PyStr)
    (m0 : ℤ) (hdir : env.isDir c = true) :
    (∀ f, selectDirFile env c = Except.ok f → f ∈ knownExtFiles env c)
    ∧ (knownExtFiles env c ≠ [] ↔ ∃ f, selectDirFile env c = Except.ok f)
    ∧ (knownExtFiles env c = [] →
        isError (resolveControl env nBins (some c) batchSize m0) = true) := by
  refine ⟨fun f h => selectDirFile_mem env c f h, ⟨?_, ?_⟩, ?_⟩
  · exact fun h => selectDirFile_exists env c h
  · rintro ⟨f, hf⟩ hk
    unfold selectDirFile at hf
    rw [if_pos (by simp [hk])] at hf
    cases hf
  · intro hk
    exact resolveControl_err_of_core env nBins batchSize (some c) m0 _
      (resolveCore_dir_no_match env nBins batchSize m0 c hdir hk)

/-- Witness for C2 (amended): a directory with a `.data` file yields a
selection; a directory with only `"a.txt"` makes resolution fail. -/
theorem C2_directory_selection_witness :
    (∃ f, selectDirFile envDirData ['d'] = Except.ok f)
    ∧ isError (resolveControl envDirTxt 12 (some ['d']) 8 5) = true :=
  ⟨(C2_directory_selection envDirData 12 8 ['d'] 5 rfl).2.1.mp (by decide),
   (C2_directory_selection envDirTxt 12 8 ['d'] 5 rfl).2.2 (by decide)⟩

/-- Claim C3: resolution yields either no controls or a control tensor
(whose step count is its length); when the control argument is absent and
no max length is given (the `-l` default `0`), resolution fails; likewise
when the argument is an inline string (so no control file supplies a
length) and no max length is given. -/
theorem C3_missing_length_fails (env : Env) (nBins batchSize : ℕ)
    (ctl : Option PyStr) (m0 : ℤ) :
    (ctl = none → m0 = 0 → isError (resolveControl env nBins ctl batchSize m0) = true)
    ∧ (∀ c, ctl = some c → env.isFile c = false → env.isDir c = false → m0 = 0 →
        isError (resolveControl env nBins ctl batchSize m0) = true)
    ∧ (∀ out, resolveControl env nBins ctl batchSize m0 = Except.ok out →
        out.controls = none ∨ ∃ t, out.controls = some t) := by
  refine ⟨?_, ?_, ?_⟩
  · rintro rfl rfl
    exact resolveControl_err_of_nonpos env nBins batchSize none 0 ⟨none, 0⟩
      (resolveCore_none env nBins batchSize 0) (by decide)
  · rintro c rfl hf hd rfl
    have hcore := resolveCore_inline env nBins batchSize 0 c hf hd
    cases hp : parseInlineControl nBins c with
    | error e =>
      simp only [hp] at hcore
      exact resolveControl_err_of_core env nBins batchSize (some c) 0 e hcore
    | ok ctrl =>
      simp only [hp] at hcore
      exact resolveControl_err_of_nonpos env nBins batchSize (some c) 0 _ hcore
        (by show ¬ (0 : ℤ) > 0; decide)
  · intro out _
    cases h : out.controls with
    | none => exact Or.inl rfl
    | some t => exact Or.inr ⟨t, rfl⟩

/-- Witness for C3: with no control and the default max length 0, and with
an inline control `";3"` and the default max length 0, resolution fails. -/
theorem C3_missing_length_fails_witness :
    isError (resolveControl envInline 12 (none : Option PyStr) 8 0) = true
    ∧ isError (resolveControl envInline 12 (some ";3".toList) 8 0) = true :=
  ⟨(C3_missing_length_fails envInline 12 8 none 0).1 rfl rfl,
   (C3_missing_length_fails envInline 12 8 (some ";3".toList) 0).2.1
      ";3".toList rfl rfl rfl rfl⟩

/-- Claim C6: for a control argument naming an existing control data file,
with no explicit max length requested (the `-l` default `0`), the final
generation length equals the step count (first dimension) of the array
recovered from the file. -/
theorem C6_file_length_inference (env : Env) (nBins batchSize : ℕ) (c : PyStr)
    (hf : env.isFile c = true) (hd : env.isDir c = false)
    (hne : env.fileData c ≠ []) :
    resolveControl env nBins (some c) batchSize 0 =
      Except.ok ⟨some ((env.fileData c).map (fun v => List.replicate batchSize v)),
                 ((env.fileData c).length : ℤ)⟩ := by
  have hcore := resolveCore_file env nBins batchSize 0 c hf hd
  rw [if_pos rfl] at hcore
  refine resolveControl_ok_intro env nBins batchSize (some c) 0 _ hcore ?_
  show (0 : ℤ) < ((env.fileData c).length : ℤ)
  exact_mod_cast List.length_pos.mpr hne

/-- Witness for C6: a two-step control file infers max length 2. -/
theorem C6_file_length_inference_witness :
    resolveControl envFileTwo 12 (some ['f']) 3 0 =
      Except.ok ⟨some ((envFileTwo.fileData ['f']).map (fun v => List.replicate 3 v)),
                 ((envFileTwo.fileData ['f']).length : ℤ)⟩ :=
  C6_file_length_inference envFileTwo 12 3 ['f'] rfl rfl (by decide)

/-- Claim C8: a successfully parsed inline control string resolves to a
one-step control tensor holding `batch_size` copies of the single
Control's serialized array: the serialized vector is identical across
every time step and replicated across the batch. -/
theorem C8_inline_broadcast (env : Env) (nBins batchSize : ℕ) (c : PyStr)
    (ctrl : Control) (m0 : ℤ)
    (hf : env.isFile c = false) (hd : env.isDir c = false)
    (hp : parseInlineControl nBins c = Except.ok ctrl) (hm : m0 > 0) :
    resolveControl env nBins (some c) batchSize m0 =
      Except.ok ⟨some [List.replicate batchSize ctrl.to_array], m0⟩
    ∧ ∀ step ∈ [List.replicate batchSize ctrl.to_array],
        step.length = batchSize ∧ ∀ v ∈ step, v = ctrl.to_array := by
  constructor
  · have hcore := resolveCore_inline env nBins batchSize m0 c hf hd
    simp only [hp] at hcore
    exact resolveControl_ok_intro env nBins batchSize (some c) m0 _ hcore hm
  · intro step hstep
    rw [List.mem_singleton] at hstep
    subst hstep
    exact ⟨List.length_replicate _ _, fun v hv => List.eq_of_mem_replicate hv⟩

/-- Witness for C8 at the inline control `";3"`, batch size 2 and max
length 7. -/
theorem C8_inline_broadcast_witness :
    resolveControl envInline 12 (some ";3".toList) 2 7 =
      Except.ok ⟨some [List.replicate 2 (Control.to_array ⟨uniform12, 3⟩)], 7⟩
    ∧ ∀ step ∈ [List.replicate 2 (Control.to_array ⟨uniform12, 3⟩)],
        step.length = 2 ∧ ∀ v ∈ step, v = Control.to_array ⟨uniform12, 3⟩ :=
  C8_inline_broadcast envInline 12 2 ";3".toList ⟨uniform12, 3⟩ 7
    rfl rfl (by rfl) (by decide)

/-- Claim C9 (implicit): length inference from a control file happens only
when the given max length is exactly 0 — a non-zero (in particular
negative) explicit max length is never replaced by the control array's
step count; every successful resolution has a positive final max length;
and a file-control run with a negative explicit max length fails the
length assertion. -/
theorem C9_maxlen_guard (env : Env) (nBins batchSize : ℕ) :
    (∀ ctl m0 out, resolveControl env nBins ctl batchSize m0 = Except.ok out →
        out.maxLen > 0)
    ∧ (∀ c m0, env.isFile c = true → env.isDir c = false → m0 ≠ 0 →
        ∀ out, resolveControl env nBins (some c) batchSize m0 = Except.ok out →
          out.maxLen = m0)
    ∧ (∀ c m0, env.isFile c = true → env.isDir c = false → m0 < 0 →
        isError (resolveControl env nBins (some c) batchSize m0) = true) := by
  refine ⟨?_, ?_, ?_⟩
  · intro ctl m0 out h
    exact (resolveControl_ok_elim env nBins batchSize ctl m0 out h).2
  · intro c m0 hf hd hm0 out h
    have hcore := (resolveControl_ok_elim env nBins batchSize (some c) m0 out h).1
    rw [resolveCore_file env nBins batchSize m0 c hf hd] at hcore
    injection hcore with hcore
    rw [← hcore]
    show (if m0 = 0 then ((env.fileData c).length : ℤ) else m0) = m0
    exact if_neg hm0
  · intro c m0 hf hd hm0
    have hcore := resolveCore_file env nBins batchSize m0 c hf hd
    rw [if_neg (by omega : ¬ m0 = 0)] at hcore
    refine resolveControl_err_of_nonpos env nBins batchSize (some c) m0 _ hcore ?_
    show ¬ m0 > 0
    omega

/-- Witness for C9: a control file with a negative explicit max length
`-2` makes the run fail. -/
theorem C9_maxlen_guard_witness :
    isError (resolveControl envFileTwo 12 (some ['f']) 3 (-2)) = true :=
  (C9_maxlen_guard envFileTwo 12 3).2.2 ['f'] (-2) rfl rfl (by decide)
